import Mathlib

/-!
Verification of the `ta` technical-analysis library against its
natural-language specification.

The library operates on pandas Series of IEEE doubles whose missing
values are NaN.  We shallowly embed a Series as `List (Option ℚ)`:
`none` is the missing-value sentinel (NaN), `some q` a finite value,
and exact rational arithmetic stands in for float arithmetic.
Positional alignment models the shared index of a Bar Table.
-/

abbrev Val := ℚ

abbrev Series := List (Option Val)

deriving instance DecidableEq for Except

/-- `s.val j` is the element at integer position `j`: `none` when `j` is out
of range or the stored value is missing (NaN). -/
def Series.val (s : Series) (j : Int) : Option Val :=
  if 0 ≤ j then (s[j.toNat]?).join else none

/-- pandas `Series.shift(k)`: element `i` of the result is element `i - k`
of the input, `none` (NaN) where that position does not exist. -/
def Series.shiftP (s : Series) (k : Int) : Series :=
  (List.range s.length).map (fun (i : Nat) => s.val ((i : Int) - k))

/-- NaN-contagious lifting of a binary operation (IEEE semantics: any
operation touching NaN yields NaN). -/
def lift2 (f : Val → Val → Val) : Option Val → Option Val → Option Val
  | some a, some b => some (f a b)
  | _, _ => none

/-- Positionwise combination of two aligned series. -/
def Series.zip2 (f : Val → Val → Val) (a b : Series) : Series :=
  List.zipWith (lift2 f) a b

/-- pandas `Series.diff(periods=k)`: `s[i] - s[i-k]` with NaN contagion. -/
def Series.diffP (s : Series) (k : Int) : Series :=
  (List.range s.length).map
    (fun (i : Nat) => lift2 (· - ·) (s.val (i : Int)) (s.val ((i : Int) - k)))

/-- Scalar multiple of a series (NaN preserved). -/
def Series.smul (c : Val) (s : Series) : Series :=
  s.map (Option.map (fun x => c * x))

/-- Elementwise map of a total scalar function (NaN preserved). -/
def Series.emap (f : Val → Val) (s : Series) : Series :=
  s.map (Option.map f)

/-- pandas `Series.cumsum()`: running sum that skips NaN for accumulation
but leaves NaN in place (skipna semantics). -/
def cumsumAux (acc : Val) : List (Option Val) → List (Option Val)
  | [] => []
  | some x :: rest => some (acc + x) :: cumsumAux (acc + x) rest
  | none :: rest => none :: cumsumAux acc rest

def Series.cumsum (s : Series) : Series :=
  cumsumAux 0 s

/-- The raw trailing window of (at most) `L` existing positions ending at
position `i`, oldest first; missing stored values stay `none`. -/
def Series.window (s : Series) (L i : Nat) : List (Option Val) :=
  (List.range (i + 1 - (i + 1 - L))).map (fun j => s.val (((i + 1 - L) + j : Nat) : Int))

/-- The non-missing observations of a raw window. -/
def definedVals (w : List (Option Val)) : List Val :=
  w.filterMap id

/-- pandas `rolling(L, min_periods=m).mean()`: the mean of the non-missing
observations in each trailing window, `none` where fewer than `m`
(or zero) observations are available. -/
def Series.rollingMean (s : Series) (L m : Nat) : Series :=
  (List.range s.length).map (fun i =>
    let w := definedVals (s.window L i)
    if m ≤ w.length ∧ 0 < w.length then some (w.sum / (w.length : Val)) else none)

/-- pandas `rolling(L, min_periods=m).apply(f, raw=True)`: `f` receives the
raw window (missing entries included, as NaN); a value is emitted only
where at least `m` non-missing observations are present. -/
def Series.rollingApply (s : Series) (L m : Nat) (f : List (Option Val) → Val) : Series :=
  (List.range s.length).map (fun i =>
    let w := s.window L i
    if m ≤ (definedVals w).length ∧ 0 < (definedVals w).length then some (f w) else none)

/-- Modelled from the spec: the rolling sample variance primitive
(`ta/statistics.py::variance`, absent from the sources at hand).  Per
§4.3 a window with fewer than `min_periods` non-missing observations
yields missing; sample variance (ddof = 1) additionally needs at least
two observations. -/
def Series.rollingVar (s : Series) (L m : Nat) : Series :=
  (List.range s.length).map (fun i =>
    let w := definedVals (s.window L i)
    if m ≤ w.length ∧ 2 ≤ w.length then
      some (((w.map (fun x => (x - w.sum / (w.length : Val)) ^ 2)).sum) / ((w.length : Val) - 1))
    else none)

/-- pandas `ewm(span=S, min_periods=m).mean()` with the default
`adjust=True`, `ignore_na=False`: a weighted mean of all non-missing
observations so far with weights `(1-α)^(i-j)`, `α = 2/(S+1)`; `none`
until `m` non-missing observations have been seen (or when the total
weight vanishes). -/
def Series.ewmMean (s : Series) (span : Val) (m : Nat) : Series :=
  (List.range s.length).map (fun i =>
    let obs := (List.range (i + 1)).filterMap
      (fun (j : Nat) => (s.val (j : Int)).map (fun x => ((1 - 2 / (span + 1)) ^ (i - j), x)))
    if m ≤ obs.length ∧ 0 < (obs.map Prod.fst).sum then
      some ((obs.map (fun p => p.1 * p.2)).sum / (obs.map Prod.fst).sum)
    else none)

/-- `np.argmax` over a raw window: the index of the first NaN when one is
present, else the first index attaining the maximum. -/
def npArgmax (w : List (Option Val)) : Nat :=
  if w.any Option.isNone then w.findIdx Option.isNone
  else
    match definedVals w with
    | [] => 0
    | x :: xs => w.findIdx (fun o => o == some (xs.foldl max x))

/-- `np.argmin` over a raw window, symmetric to `npArgmax`. -/
def npArgmin (w : List (Option Val)) : Nat :=
  if w.any Option.isNone then w.findIdx Option.isNone
  else
    match definedVals w with
    | [] => 0
    | x :: xs => w.findIdx (fun o => o == some (xs.foldl min x))

/-- Gap-fill propagation direction (`fillna(method=...)`). -/
inductive FillMethod where
  | ffill
  | bfill
deriving DecidableEq

/-- pandas `fillna(value)`: every missing value replaced by `v`. -/
def Series.fillValue (s : Series) (v : Val) : Series :=
  s.map (fun o => some (o.getD v))

def ffillAux (last : Option Val) : List (Option Val) → List (Option Val)
  | [] => []
  | some x :: rest => some x :: ffillAux (some x) rest
  | none :: rest => last :: ffillAux last rest

/-- pandas `fillna(method='ffill')`. -/
def Series.ffill (s : Series) : Series :=
  ffillAux none s

/-- pandas `fillna(method='bfill')`. -/
def Series.bfill (s : Series) : Series :=
  (ffillAux none s.reverse).reverse

def Series.fillMethod (s : Series) : FillMethod → Series
  | .ffill => s.ffill
  | .bfill => s.bfill

/-- The universal keyword options threaded through every indicator. -/
structure Kwargs where
  fillna : Option Val
  fill_method : Option FillMethod
  append : Bool
  min_periods : Option Int
deriving DecidableEq

/-- No keyword options given. -/
def Kwargs.empty : Kwargs :=
  ⟨none, none, false, none⟩

/-- The `# Handle fills` block shared by the indicators: `fillna` first,
then `fill_method`, each applied only when present. -/
def Series.handleFills (s : Series) (kw : Kwargs) : Series :=
  match kw.fill_method with
  | some m => (match kw.fillna with | some v => s.fillValue v | none => s).fillMethod m
  | none => match kw.fillna with | some v => s.fillValue v | none => s

/-- `int(kwargs['min_periods']) if 'min_periods' in kwargs and kwargs['min_periods'] is not None else dflt`. -/
def Kwargs.minPeriods (kw : Kwargs) (dflt : Nat) : Nat :=
  match kw.min_periods with
  | some v => v.toNat
  | none => dflt

/-- The pervasive validation idiom `int(x) if x and x > 0 else d`
(`0` is falsy, non-positive values fall back to the default). -/
def defInt (x : Option Int) (d : Nat) : Nat :=
  match x with
  | some v => if 0 < v then v.toNat else d
  | none => d

/-- `float(x) if x and x > 0 else d`. -/
def defPos (x : Option Val) (d : Val) : Val :=
  match x with
  | some v => if 0 < v then v else d
  | none => d

/-- `float(x) if x and x >= 0 else d` (`0` is falsy, so it still falls
back to the default). -/
def defNonneg (x : Option Val) (d : Val) : Val :=
  match x with
  | some v => if ¬ v = 0 ∧ 0 ≤ v then v else d
  | none => d

/-- Modelled from the spec: `ta/utils.py::get_offset` (absent from the
sources at hand) — §6: "`offset`: integer — shift final output by this
many positions (default 0)". -/
def get_offset (o : Option Int) : Int :=
  o.getD 0

/-- Modelled from the spec: `ta/utils.py::get_drift` (absent from the
sources at hand) — §4.2: drift uses the normalize routine with default 1
(mirrored in `_extension.py`: `int(drift) if drift and drift != 0 else 1`). -/
def get_drift (d : Option Int) : Int :=
  match d with
  | some v => if v ≠ 0 then v else 1
  | none => 1

/-- A named, categorised output series (`.name` / `.category` metadata). -/
structure NamedSeries where
  name : String
  category : String
  values : Series
deriving DecidableEq

/-- A Bar Table: ordered named columns sharing one positional index. -/
abbrev Df := List (String × Series)

def Df.col? (df : Df) (n : String) : Option Series :=
  (df.find? (fun p => p.1 == n)).map Prod.snd

def Df.hasCol (df : Df) (n : String) : Bool :=
  (df.find? (fun p => p.1 == n)).isSome

/-- `df[name] = series`: overwrite a present column, else append it. -/
def Df.setCol (df : Df) (n : String) (s : Series) : Df :=
  if df.hasCol n then df.map (fun p => if p.1 == n then (n, s) else p) else df ++ [(n, s)]

/-- The Python exceptions surfaced by the embedded code paths. -/
inductive PyExn where
  | attributeError (msg : String)
  | valueError (msg : String)
  | nameError (msg : String)
deriving DecidableEq

/-- A user-supplied column reference: an explicit series, a column name,
or nothing (Python `None`). -/
inductive SeriesArg where
  | ser (s : Series)
  | str (n : String)
  | null
deriving DecidableEq

/-- The column-resolution idiom of `_extension.py`:
`x if isinstance(x, pd.Series) else (df[x] if x in df.columns else df.field)`;
attribute access on an absent default column raises `AttributeError`. -/
def resolveArg (df : Df) (arg : SeriesArg) (field : String) : Except PyExn Series :=
  match arg with
  | .ser s => .ok s
  | .str n =>
    match df.col? n with
    | some s => .ok s
    | none =>
      match df.col? field with
      | some s => .ok s
      | none => .error (.attributeError field)
  | .null =>
    match df.col? field with
    | some s => .ok s
    | none => .error (.attributeError field)

/-- Python `str.lower()`, modelled over the character data (Lean's own
`String.toLower` maps the same `Char.toLower` characterwise but through
byte positions that do not reduce in the kernel). -/
def pyLowerStr (s : String) : String :=
  String.mk (s.data.map Char.toLower)

/-- `mamode.lower() if mamode else dflt` (the empty string is falsy). -/
def pyLowerOr (m : Option String) (dflt : String) : String :=
  match m with
  | some s => if s = "" then dflt else pyLowerStr s
  | none => dflt

/-- `mamode.lower() if mamode else None`. -/
def pyLowerOpt (m : Option String) : Option String :=
  match m with
  | some s => if s = "" then none else some (pyLowerStr s)
  | none => none

/-- A two-member output bundle (Aroon up/down). -/
structure AroonBundle where
  name : String
  category : String
  up : NamedSeries
  down : NamedSeries
deriving DecidableEq

/-- A three-member output bundle (lower / mid-or-basis / upper). -/
structure Bundle3 where
  name : String
  category : String
  lower : NamedSeries
  mid : NamedSeries
  upper : NamedSeries
deriving DecidableEq

instance : DecidableEq (NamedSeries × Df) := instDecidableEqProd

instance : DecidableEq (Option (NamedSeries × Df)) := fun a b => Option.instDecidableEq a b

instance : DecidableEq (AroonBundle × Df) := instDecidableEqProd

instance : DecidableEq (Option (AroonBundle × Df)) := fun a b => Option.instDecidableEq a b

instance : DecidableEq (Bundle3 × Df) := instDecidableEqProd

instance : DecidableEq (Option (Bundle3 × Df)) := fun a b => Option.instDecidableEq a b

namespace performance

/-- Embeds `ta/performance.py::log_return`.  `np.log` is modelled by the
uninterpreted parameter `log : Val → Val` (its values never influence the
control flow verified here).  The function has no fill handling: `fillna`
and `fill_method` in `kwargs` are silently ignored.  Its append branch
executes `df[log_return.name] = log_return` where no name `df` is in
scope, so `append=True` raises `NameError` instead of returning. -/
def log_return (log : Val → Val) (close : Series) (length : Option Int)
    (cumulative percent : Bool) (offset : Option Int) (kw : Kwargs) :
    Except PyExn NamedSeries :=
  let lengthV := defInt length 1
  let offsetV : Int := offset.getD 0
  let percentV : Val := if percent then 100 else 1
  let lr := ((close.emap log).diffP lengthV).smul percentV
  let lr := if cumulative then lr.cumsum else lr
  let lr := lr.shiftP offsetV
  let nm := (if cumulative then "CUM_" else "") ++ "LOGRET_" ++ toString lengthV
  if kw.append then .error (.nameError "df")
  else .ok ⟨nm, "performance", lr⟩

end performance

/-- Embeds `ta/_extension.py::_ao` (Awesome Oscillator).  Note: unlike
`apo`, the fast/slow pair is validated without the out-of-order swap. -/
def _ao (df : Option Df) (high low : SeriesArg) (fast slow : Option Int)
    (kw : Kwargs) : Except PyExn (Option (NamedSeries × Df)) :=
  match df with
  | none => .ok none
  | some df =>
    match resolveArg df high "high" with
    | .error e => .error e
    | .ok highS =>
      match resolveArg df low "low" with
      | .error e => .error e
      | .ok lowS =>
        let fastV := defInt fast 5
        let slowV := defInt slow 34
        let median_price := Series.smul (1/2) (Series.zip2 (· + ·) highS lowS)
        let ao := Series.zip2 (· - ·) (median_price.rollingMean fastV fastV)
          (median_price.rollingMean slowV slowV)
        let ao := ao.handleFills kw
        let nm := "AO_" ++ toString fastV ++ "_" ++ toString slowV
        let df := if kw.append then df.setCol nm ao else df
        .ok (some (⟨nm, "momentum", ao⟩, df))

/-- Embeds `ta/_extension.py::_aroon`.  The `offset` parameter is accepted
but never used: the computed series are returned unshifted. -/
def _aroon (df : Option Df) (close : SeriesArg) (length : Option Int)
    (offset : Option Int) (kw : Kwargs) : Except PyExn (Option (AroonBundle × Df)) :=
  match df with
  | none => .ok none
  | some df =>
    match resolveArg df close "close" with
    | .error e => .error e
    | .ok closeS =>
      let lengthV := defInt length 14
      let maxidx := fun (w : List (Option Val)) =>
        100 * ((npArgmax w : Val) + 1) / (lengthV : Val)
      let minidx := fun (w : List (Option Val)) =>
        100 * ((npArgmin w : Val) + 1) / (lengthV : Val)
      let aroon_up := (closeS.rollingApply lengthV lengthV maxidx).handleFills kw
      let aroon_down := (closeS.rollingApply lengthV lengthV minidx).handleFills kw
      let nmU := "AROONU_" ++ toString lengthV
      let nmD := "AROOND_" ++ toString lengthV
      let df := if kw.append then (df.setCol nmU aroon_up).setCol nmD aroon_down else df
      .ok (some (⟨"ARRON_" ++ toString lengthV, "",
        ⟨nmU, "", aroon_up⟩, ⟨nmD, "", aroon_down⟩⟩, df))

namespace trend

/-- Embeds `ta/trend.py::aroon` (module variant): same reducers as
`_aroon` but honouring `min_periods` and applying the offset shift. -/
def aroon (close : Series) (length : Option Int) (offset : Option Int)
    (kw : Kwargs) : AroonBundle :=
  let lengthV := defInt length 14
  let mp := kw.minPeriods lengthV
  let offsetV := get_offset offset
  let maxidx := fun (w : List (Option Val)) =>
    100 * ((npArgmax w : Val) + 1) / (lengthV : Val)
  let minidx := fun (w : List (Option Val)) =>
    100 * ((npArgmin w : Val) + 1) / (lengthV : Val)
  let aroon_up := (close.rollingApply lengthV mp maxidx).handleFills kw
  let aroon_down := (close.rollingApply lengthV mp minidx).handleFills kw
  let aroon_up := if offsetV ≠ 0 then aroon_up.shiftP offsetV else aroon_up
  let aroon_down := if offsetV ≠ 0 then aroon_down.shiftP offsetV else aroon_down
  ⟨"AROON_" ++ toString lengthV, "trend",
    ⟨"AROONU_" ++ toString lengthV, "trend", aroon_up⟩,
    ⟨"AROOND_" ++ toString lengthV, "trend", aroon_down⟩⟩

/-- Embeds `ta/trend.py::decreasing`.  `close.diff(length) < 0` maps NaN
to False (NaN comparisons are False); with `asint=False` the boolean
series is numerically identical to its `astype(int)` image, so both
paths denote the same series of 0/1 values. -/
def decreasing (close : Series) (length : Option Int) (asint : Bool)
    (offset : Option Int) (kw : Kwargs) : NamedSeries :=
  let lengthV := defInt length 1
  let offsetV := get_offset offset
  let dec : Series := (close.diffP lengthV).map
    (fun o => some (if (match o with | some x => decide (x < 0) | none => false) then 1 else 0))
  let dec := if offsetV ≠ 0 then dec.shiftP offsetV else dec
  let dec := dec.handleFills kw
  ⟨"DEC_" ++ toString lengthV, "trend", dec⟩

end trend

/-- Rowwise maximum of three aligned entries, skipping missing ones
(pandas `DataFrame.max(axis=1)`, default `skipna=True`): an all-missing
row stays missing. -/
def skipnaMax3 (a b c : Option Val) : Option Val :=
  match definedVals [a, b, c] with
  | [] => none
  | x :: xs => some (xs.foldl max x)

/-- Positionwise combination of three aligned series. -/
def zip3 (f : Option Val → Option Val → Option Val → Option Val) :
    Series → Series → Series → Series
  | a :: as, b :: bs, c :: cs => f a b c :: zip3 f as bs cs
  | _, _, _ => []

def absOpt (o : Option Val) : Option Val :=
  o.map (fun x => |x|)

namespace volatility

/-- Embeds `ta/volatility.py::true_range`.
`pd.DataFrame([high-low, high-prev_close, low-prev_close]).T.abs().max(axis=1)`
is a rowwise skipna maximum of absolute values: a row with a missing
entry is not missing unless all three entries are. -/
def true_range (high low close : Series) (drift offset : Option Int)
    (kw : Kwargs) : NamedSeries :=
  let driftV := get_drift drift
  let offsetV := get_offset offset
  let prev_close := close.shiftP driftV
  let r1 := Series.zip2 (· - ·) high low
  let r2 := Series.zip2 (· - ·) high prev_close
  let r3 := Series.zip2 (· - ·) low prev_close
  let tr := zip3 (fun a b c => skipnaMax3 (absOpt a) (absOpt b) (absOpt c)) r1 r2 r3
  let tr := if offsetV ≠ 0 then tr.shiftP offsetV else tr
  let tr := tr.handleFills kw
  ⟨"TRUERANGE_" ++ toString driftV, "volatility", tr⟩

/-- Embeds `ta/volatility.py::atr` (Average True Range): a moving average
of the true range, exponential by default. -/
def atr (high low close : Series) (length : Option Int) (mamode : Option String)
    (drift offset : Option Int) (kw : Kwargs) : NamedSeries :=
  let lengthV := defInt length 14
  let mp := kw.minPeriods lengthV
  let mamodeV := pyLowerOr mamode "ema"
  let driftV := get_drift drift
  let offsetV := get_offset offset
  let tr := (true_range high low close (some driftV) none Kwargs.empty).values
  let atrS := if mamodeV == "ema" then tr.ewmMean (lengthV : Val) mp
              else tr.rollingMean lengthV mp
  let atrS := if offsetV ≠ 0 then atrS.shiftP offsetV else atrS
  let atrS := atrS.handleFills kw
  ⟨"ATR_" ++ toString lengthV, "volatility", atrS⟩

/-- Modelled from the spec: `ta/overlap.py::hlc3` (absent from the sources
at hand) — the typical price `(high + low + close) / 3`, per the Keltner
documentation inside `ta/volatility.py`. -/
def hlc3 (high low close : Series) : Series :=
  (Series.zip2 (· + ·) (Series.zip2 (· + ·) high low) close).emap (fun x => x / 3)

/-- Embeds `ta/volatility.py::kc` (Keltner Channels, module variant):
default `length=20`, default `mamode=None`; `mamode='ema'` selects
`EMA(close)` ± `scalar · ATR`, anything else selects `SMA(hlc3)` ±
`scalar · SMA(high-low)`.  The source also binds
`std = variance(close, length).apply(np.sqrt)`, which is never used
afterwards and cannot affect the result. -/
def kc (high low close : Series) (length : Option Int) (scalar : Option Val)
    (mamode : Option String) (offset : Option Int) (kw : Kwargs) : Bundle3 :=
  let lengthV := defInt length 20
  let mp := kw.minPeriods lengthV
  let scalarV := defPos scalar 2
  let mamodeV := pyLowerOpt mamode
  let offsetV := get_offset offset
  let basis := if mamodeV == some "ema" then close.ewmMean (lengthV : Val) mp
               else (hlc3 high low close).rollingMean lengthV mp
  let band := if mamodeV == some "ema" then
                (atr high low close none none none none Kwargs.empty).values
              else (Series.zip2 (· - ·) high low).rollingMean lengthV mp
  let lower := Series.zip2 (· - ·) basis (band.smul scalarV)
  let upper := Series.zip2 (· + ·) basis (band.smul scalarV)
  let lower := if offsetV ≠ 0 then lower.shiftP offsetV else lower
  let basis := if offsetV ≠ 0 then basis.shiftP offsetV else basis
  let upper := if offsetV ≠ 0 then upper.shiftP offsetV else upper
  let lower := lower.handleFills kw
  let basis := basis.handleFills kw
  let upper := upper.handleFills kw
  ⟨"KC_" ++ toString lengthV, "volatility",
    ⟨"KCL_" ++ toString lengthV, "volatility", lower⟩,
    ⟨"KCB_" ++ toString lengthV, "volatility", basis⟩,
    ⟨"KCU_" ++ toString lengthV, "volatility", upper⟩⟩

/-- Modelled from the spec: `ta/statistics.py::stdev` (absent from the
sources at hand) — the rolling standard deviation primitive of §4.3,
the pointwise square root of the rolling sample variance with
`min_periods = length`.  The IEEE square root leaves ℚ, so it is passed
as an uninterpreted parameter `sqrt`; every property proved below
assumes only that `sqrt` maps nonnegative inputs to nonnegative
outputs, which IEEE `sqrt` satisfies. -/
def stdev (sqrt : Val → Val) (close : Series) (length : Nat) : Series :=
  (close.rollingVar length length).emap sqrt

/-- Embeds `ta/volatility.py::bbands` (Bollinger Bands, module variant).
`mamode` other than `'sma'`/`'ema'` leaves `mid` unbound
(`UnboundLocalError`, modelled as a `nameError`). -/
def bbands (sqrt : Val → Val) (close : Series) (length : Option Int)
    (std : Option Val) (mamode : Option String) (offset : Option Int)
    (kw : Kwargs) : Except PyExn Bundle3 :=
  let lengthV := defInt length 20
  let mp := kw.minPeriods lengthV
  let stdV := defPos std 2
  let mamodeV := pyLowerOr mamode "ema"
  let offsetV := get_offset offset
  let standard_deviation := stdev sqrt close lengthV
  if mamodeV = "sma" ∨ mamodeV = "ema" then
    let mid := if mamodeV == "sma" then close.rollingMean lengthV mp
               else close.ewmMean (lengthV : Val) mp
    let lower := Series.zip2 (· - ·) mid (standard_deviation.smul stdV)
    let upper := Series.zip2 (· + ·) mid (standard_deviation.smul stdV)
    let lower := if offsetV ≠ 0 then lower.shiftP offsetV else lower
    let mid := if offsetV ≠ 0 then mid.shiftP offsetV else mid
    let upper := if offsetV ≠ 0 then upper.shiftP offsetV else upper
    let lower := lower.handleFills kw
    let mid := mid.handleFills kw
    let upper := upper.handleFills kw
    .ok ⟨"BBANDS_" ++ toString lengthV, "volatility",
      ⟨"BBL_" ++ toString lengthV, "volatility", lower⟩,
      ⟨"BBM_" ++ toString lengthV, "volatility", mid⟩,
      ⟨"BBU_" ++ toString lengthV, "volatility", upper⟩⟩
  else .error (.nameError "mid")

end volatility

namespace AnalysisIndicators

/-- Embeds `AnalysisIndicators.log_return`: resolves the close column,
delegates to `performance.log_return` (forwarding all kwargs, `append`
included), then appends the result itself.  Because the delegate's own
append branch raises `NameError` first, the accessor's append step is
unreachable when `append=True`. -/
def log_return (log : Val → Val) (df : Option Df) (close : SeriesArg)
    (length : Option Int) (cumulative percent : Bool) (offset : Option Int)
    (kw : Kwargs) : Except PyExn (Option (NamedSeries × Df)) :=
  match df with
  | none => .ok none
  | some df =>
    match resolveArg df close "close" with
    | .error e => .error e
    | .ok closeS =>
      match performance.log_return log closeS length cumulative percent offset kw with
      | .error e => .error e
      | .ok result =>
        let df := if kw.append then df.setCol result.name result.values else df
        .ok (some (result, df))

/-- Embeds `AnalysisIndicators.ao`: a thin delegate to `_ao`. -/
def ao (df : Option Df) (high low : SeriesArg) (fast slow : Option Int)
    (kw : Kwargs) : Except PyExn (Option (NamedSeries × Df)) :=
  _ao df high low fast slow kw

/-- Embeds `AnalysisIndicators.aroon`: a thin delegate to `_aroon`
(which drops `offset`). -/
def aroon (df : Option Df) (close : SeriesArg) (length : Option Int)
    (offset : Option Int) (kw : Kwargs) : Except PyExn (Option (AroonBundle × Df)) :=
  _aroon df close length offset kw

/-- Embeds `AnalysisIndicators.apo`: after defaulting, an out-of-order
fast/slow pair is swapped (`if slow < fast: fast, slow = slow, fast`)
and `min_periods` defaults to the post-swap `fast`. -/
def apo (df : Option Df) (close : SeriesArg) (fast slow : Option Int)
    (kw : Kwargs) : Except PyExn (Option (NamedSeries × Df)) :=
  match df with
  | none => .ok none
  | some df =>
    match resolveArg df close "close" with
    | .error e => .error e
    | .ok closeS =>
      let fastV := defInt fast 12
      let slowV := defInt slow 26
      let fastW := if slowV < fastV then slowV else fastV
      let slowW := if slowV < fastV then fastV else slowV
      let mp := kw.minPeriods fastW
      let apoS := Series.zip2 (· - ·) (closeS.rollingMean fastW mp)
        (closeS.rollingMean slowW mp)
      let apoS := apoS.handleFills kw
      let nm := "APO_" ++ toString fastW ++ "_" ++ toString slowW
      let df := if kw.append then df.setCol nm apoS else df
      .ok (some (⟨nm, "momentum", apoS⟩, df))

/-- The body of `AnalysisIndicators.true_range` after column resolution
(the source also validates `min_periods`, which it then never uses). -/
def true_range_core (high low close : Series) (length drift : Option Int)
    (kw : Kwargs) : NamedSeries :=
  let lengthV := defInt length 1
  let driftV := get_drift drift
  let prev_close := close.shiftP driftV
  let r1 := Series.zip2 (· - ·) high low
  let r2 := Series.zip2 (· - ·) high prev_close
  let r3 := Series.zip2 (· - ·) low prev_close
  let tr := zip3 (fun a b c => skipnaMax3 (absOpt a) (absOpt b) (absOpt c)) r1 r2 r3
  let tr := tr.handleFills kw
  ⟨"TRUERANGE_" ++ toString lengthV, "volatility", tr⟩

/-- Embeds `AnalysisIndicators.true_range` (accessor variant: no offset
step, named by `length` rather than by `drift`). -/
def true_range (df : Option Df) (high low close : SeriesArg)
    (length drift : Option Int) (kw : Kwargs) :
    Except PyExn (Option (NamedSeries × Df)) :=
  match df with
  | none => .ok none
  | some df =>
    match resolveArg df high "high" with
    | .error e => .error e
    | .ok highS =>
      match resolveArg df low "low" with
      | .error e => .error e
      | .ok lowS =>
        match resolveArg df close "close" with
        | .error e => .error e
        | .ok closeS =>
          let r := true_range_core highS lowS closeS length drift kw
          let df := if kw.append then df.setCol r.name r.values else df
          .ok (some (r, df))

/-- The body of `AnalysisIndicators.atr` after column resolution:
`self.true_range(...)` is invoked without forwarding any kwargs. -/
def atr_core (high low close : Series) (length : Option Int)
    (mamode : Option String) (kw : Kwargs) : NamedSeries :=
  let lengthV := defInt length 14
  let mp := kw.minPeriods lengthV
  let mamodeV := pyLowerOr mamode "ema"
  let tr := (true_range_core high low close (some (lengthV : Int)) none Kwargs.empty).values
  let atrS := if mamodeV == "ema" then tr.ewmMean (lengthV : Val) mp
              else tr.rollingMean lengthV mp
  let atrS := atrS.handleFills kw
  ⟨"ATR_" ++ toString lengthV, "volatility", atrS⟩

/-- Embeds `AnalysisIndicators.atr` (accessor variant). -/
def atr (df : Option Df) (high low close : SeriesArg) (length : Option Int)
    (mamode : Option String) (kw : Kwargs) :
    Except PyExn (Option (NamedSeries × Df)) :=
  match df with
  | none => .ok none
  | some df =>
    match resolveArg df high "high" with
    | .error e => .error e
    | .ok highS =>
      match resolveArg df low "low" with
      | .error e => .error e
      | .ok lowS =>
        match resolveArg df close "close" with
        | .error e => .error e
        | .ok closeS =>
          let r := atr_core highS lowS closeS length mamode kw
          let df := if kw.append then df.setCol r.name r.values else df
          .ok (some (r, df))

/-- The body of `AnalysisIndicators.kc` after column resolution: default
`length=9999`, default `mamode='classic'`; relative to the module
variant the meaning of `mamode` is exchanged — here `mamode='ema'`
selects `SMA(hlc3)` ± `scalar · SMA(high-low)` and anything else
selects `EMA(close)` ± `scalar · ATR` (`self.atr` with its defaults,
no kwargs forwarded).  The dead `std = self.variance(...).apply(np.sqrt)`
binding is again unused. -/
def kc_core (high low close : Series) (length : Option Int)
    (scalar : Option Val) (mamode : Option String) (kw : Kwargs) : Bundle3 :=
  let lengthV := defInt length 9999
  let mp := kw.minPeriods lengthV
  let scalarV := defNonneg scalar 2
  let mamodeV := pyLowerOr mamode "classic"
  let basis := if mamodeV == "ema" then (volatility.hlc3 high low close).rollingMean lengthV mp
               else close.ewmMean (lengthV : Val) mp
  let band := if mamodeV == "ema" then (Series.zip2 (· - ·) high low).rollingMean lengthV mp
              else (atr_core high low close none none Kwargs.empty).values
  let lower := Series.zip2 (· - ·) basis (band.smul scalarV)
  let upper := Series.zip2 (· + ·) basis (band.smul scalarV)
  let lower := lower.handleFills kw
  let basis := basis.handleFills kw
  let upper := upper.handleFills kw
  ⟨"KC" ++ toString lengthV, "volatility",
    ⟨"KCL_" ++ toString lengthV, "volatility", lower⟩,
    ⟨"KCB_" ++ toString lengthV, "volatility", basis⟩,
    ⟨"KCU_" ++ toString lengthV, "volatility", upper⟩⟩

/-- Embeds `AnalysisIndicators.kc` (accessor variant). -/
def kc (df : Option Df) (high low close : SeriesArg) (length : Option Int)
    (scalar : Option Val) (mamode : Option String) (kw : Kwargs) :
    Except PyExn (Option (Bundle3 × Df)) :=
  match df with
  | none => .ok none
  | some df =>
    match resolveArg df high "high" with
    | .error e => .error e
    | .ok highS =>
      match resolveArg df low "low" with
      | .error e => .error e
      | .ok lowS =>
        match resolveArg df close "close" with
        | .error e => .error e
        | .ok closeS =>
          let b := kc_core highS lowS closeS length scalar mamode kw
          let df := if kw.append then
              ((df.setCol b.lower.name b.lower.values).setCol b.mid.name b.mid.values).setCol
                b.upper.name b.upper.values
            else df
          .ok (some (b, df))

end AnalysisIndicators

namespace AnalysisIndicators

/-- The indicator methods defined on the `AnalysisIndicators` class —
the facade's "known indicator functions". -/
def indicatorNames : List String :=
  ["apo", "ao", "aroon", "bop", "cci", "kst", "macd", "massi", "mfi",
   "mom", "ppo", "roc", "rsi", "tsi", "uo", "willr",
   "hl2", "hlc3", "ohlc4", "median", "midpoint", "midprice", "rpn",
   "log_return", "percent_return",
   "kurtosis", "quantile", "skew", "stdev", "variance",
   "decreasing", "dpo", "increasing",
   "atr", "bbands", "donchian", "kc", "stoch", "true_range",
   "ad", "cmf", "efi", "eom", "nvi", "obv", "pvol", "pvt"]

/-- The attribute names this repository itself defines on the accessor:
the indicator methods together with the non-indicator `defaults` helper
and `__call__` on the class, `__init__` on `BasePandasObject`, and the
`_df` instance attribute its constructor sets.  In the running program
`getattr(self, ...)` additionally resolves every attribute inherited
from `PandasObject` and `object` (`__repr__`, `__doc__`, `__dir__`,
...); those are defined outside this repository, so the dispatch below
is modelled over the full resolvable set as an explicit parameter of
which this list is the in-repository part. -/
def ownAttrNames : List String :=
  indicatorNames ++ ["defaults", "_df", "__call__", "__init__"]

/-- `kind.lower()` on the rebound `kind`, which is either a lower-cased
string or Python `None`; `None.lower()` raises `AttributeError`. -/
def pyLower : Option String → Except PyExn String
  | some s => .ok (pyLowerStr s)
  | none => .error (.attributeError "NoneType object has no attribute lower")

/-- Embeds the dispatch of `AnalysisIndicators.__call__`:
`kind = kind.lower() if isinstance(kind, str) else None`, then
`try: fn = getattr(self, kind.lower()) except AttributeError: raise
ValueError(f"kind=... is not valid ...")`.  `attrs` is the set of
attribute names `getattr(self, ·)` resolves — in the running program
`ownAttrNames` together with the attributes inherited from
`PandasObject`/`object`.  A non-string `kind` is modelled as `none`
(all non-strings are rebound to Python `None`).  An `AttributeError` in
the `try` block reaches the handler, whose f-string evaluates
`kind.lower()` again; for `kind=None` that second call itself raises
`AttributeError` out of the handler.  On successful resolution the
attribute name is returned (the program then calls the resolved
attribute; `alias`/`timed` only decorate its result). -/
def call (attrs : List String) (kind : Option String) : Except PyExn String :=
  let kindR : Option String := kind.map pyLowerStr
  let onAttrErr : Except PyExn String :=
    match pyLower kindR with
    | .ok k => .error (.valueError ("kind=" ++ "'" ++ k ++ "' is not valid for AnalysisIndicators"))
    | .error e => .error e
  match pyLower kindR with
  | .ok k => if attrs.contains k then .ok k else onAttrErr
  | .error _ => onAttrErr

end AnalysisIndicators

/-! ### Basic lemmas about the series primitives -/

theorem handleFills_empty (s : Series) : s.handleFills Kwargs.empty = s := rfl

theorem val_natCast (s : Series) (i : Nat) : s.val (i : Int) = (s[i]?).join := by
  unfold Series.val
  rw [if_pos (Int.ofNat_nonneg i)]
  simp

theorem val_rangeMap (f : Nat → Option Val) (n i : Nat) :
    Series.val ((List.range n).map f) (i : Int) = if i < n then f i else none := by
  rw [val_natCast]
  by_cases hi : i < n
  · simp [List.getElem?_map, List.getElem?_range, hi]
  · rw [List.getElem?_map, List.getElem?_eq_none (by simp [List.length_range]; omega)]
    simp [hi]

theorem val_zip2_some (f : Val → Val → Val) (a b : Series) (i : Nat) (z : Val)
    (h : (Series.zip2 f a b).val (i : Int) = some z) :
    ∃ x y, a.val (i : Int) = some x ∧ b.val (i : Int) = some y ∧ z = f x y := by
  rw [val_natCast] at h
  unfold Series.zip2 at h
  rcases ho : (List.zipWith (lift2 f) a b)[i]? with _ | o
  · rw [ho] at h; exact absurd h (by simp [Option.join])
  · rw [ho] at h
    rw [List.getElem?_zipWith_eq_some] at ho
    obtain ⟨x, y, hx, hy, hfxy⟩ := ho
    rcases x with _ | x
    · subst hfxy; exact absurd h (by simp [lift2, Option.join])
    · rcases y with _ | y
      · subst hfxy; exact absurd h (by simp [lift2, Option.join])
      · refine ⟨x, y, ?_, ?_, ?_⟩
        · rw [val_natCast, hx]; rfl
        · rw [val_natCast, hy]; rfl
        · subst hfxy; simp [lift2, Option.join] at h; exact h.symm

theorem val_map_some (g : Option Val → Option Val) (s : Series) (i : Nat) (z : Val)
    (h : Series.val (s.map g) (i : Int) = some z) :
    ∃ o, s[i]? = some o ∧ g o = some z := by
  rw [val_natCast, List.getElem?_map] at h
  rcases ho : s[i]? with _ | o
  · rw [ho] at h; exact absurd h (by simp [Option.join])
  · rw [ho] at h
    exact ⟨o, rfl, by simpa [Option.join] using h⟩

theorem val_smul_some (c : Val) (s : Series) (i : Nat) (z : Val)
    (h : (s.smul c).val (i : Int) = some z) :
    ∃ x, s.val (i : Int) = some x ∧ z = c * x := by
  obtain ⟨o, ho, hg⟩ := val_map_some _ s i z h
  rcases o with _ | x
  · exact absurd hg (by simp)
  · exact ⟨x, by rw [val_natCast, ho]; rfl, by simpa using hg.symm⟩

theorem val_emap_some (f : Val → Val) (s : Series) (i : Nat) (z : Val)
    (h : (s.emap f).val (i : Int) = some z) :
    ∃ x, s.val (i : Int) = some x ∧ z = f x := by
  obtain ⟨o, ho, hg⟩ := val_map_some _ s i z h
  rcases o with _ | x
  · exact absurd hg (by simp)
  · exact ⟨x, by rw [val_natCast, ho]; rfl, by simpa using hg.symm⟩

theorem rollingVar_val_nonneg (s : Series) (L m : Nat) (i : Nat) (vr : Val)
    (h : (s.rollingVar L m).val (i : Int) = some vr) : 0 ≤ vr := by
  unfold Series.rollingVar at h
  rw [val_rangeMap] at h
  by_cases hi : i < s.length
  · rw [if_pos hi] at h
    set w := definedVals (s.window L i) with hw
    by_cases hc : m ≤ w.length ∧ 2 ≤ w.length
    · rw [if_pos hc] at h
      obtain ⟨rfl⟩ : vr = _ := by exact (Option.some_inj.mp h).symm
      apply div_nonneg
      · apply List.sum_nonneg
        intro x hx
        obtain ⟨y, _, rfl⟩ := List.mem_map.mp hx
        positivity
      · have : (2 : Val) ≤ (w.length : Val) := by exact_mod_cast hc.2
        linarith
    · rw [if_neg hc] at h; exact absurd h (by simp)
  · rw [if_neg hi] at h; exact absurd h (by simp)

theorem defPos_pos (x : Option Val) : 0 < defPos x 2 := by
  rcases x with _ | v
  · norm_num [defPos]
  · simp only [defPos]
    split
    · assumption
    · norm_num

theorem fillValue_all_isSome (s : Series) (v : Val) :
    (s.fillValue v).all Option.isSome = true := by
  unfold Series.fillValue
  rw [List.all_map]
  exact List.all_eq_true.mpr (fun o _ => rfl)

theorem ffillAux_all_isSome (last : Option Val) (s : List (Option Val))
    (h : s.all Option.isSome = true) : (ffillAux last s).all Option.isSome = true := by
  induction s generalizing last with
  | nil => rfl
  | cons o rest ih =>
    rcases o with _ | x
    · exact absurd h (by simp)
    · simp only [ffillAux, List.all_cons, Bool.and_eq_true] at h ⊢
      exact ⟨rfl, ih (some x) h.2⟩

theorem fillMethod_all_isSome (s : Series) (m : FillMethod)
    (h : s.all Option.isSome = true) : (s.fillMethod m).all Option.isSome = true := by
  cases m with
  | ffill => exact ffillAux_all_isSome none s h
  | bfill =>
    simp only [Series.fillMethod, Series.bfill]
    rw [List.all_eq_true] at h ⊢
    intro o ho
    exact List.all_eq_true.mp
      (ffillAux_all_isSome none s.reverse
        (List.all_eq_true.mpr (fun x hx => h x (List.mem_reverse.mp hx))))
      o (List.mem_reverse.mp ho)

theorem handleFills_fillna_all_isSome (s : Series) (kw : Kwargs) (v : Val)
    (hv : kw.fillna = some v) : (s.handleFills kw).all Option.isSome = true := by
  unfold Series.handleFills
  rw [hv]
  rcases kw.fill_method with _ | m
  · exact fillValue_all_isSome s v
  · exact fillMethod_all_isSome _ m (fillValue_all_isSome s v)

/-! ### Length preservation lemmas -/

theorem shiftP_length (s : Series) (k : Int) : (s.shiftP k).length = s.length := by
  unfold Series.shiftP
  rw [List.length_map, List.length_range]

theorem diffP_length (s : Series) (k : Int) : (s.diffP k).length = s.length := by
  unfold Series.diffP
  rw [List.length_map, List.length_range]

theorem zip2_length (f : Val → Val → Val) (a b : Series) :
    (Series.zip2 f a b).length = min a.length b.length := by
  simp [Series.zip2]

theorem zip3_length (f : Option Val → Option Val → Option Val → Option Val)
    (a b c : Series) : (zip3 f a b c).length = min a.length (min b.length c.length) := by
  induction a generalizing b c with
  | nil => simp [zip3]
  | cons x as ih =>
    cases b with
    | nil => simp [zip3]
    | cons y bs =>
      cases c with
      | nil => simp [zip3]
      | cons z cs =>
        simp only [zip3, List.length_cons, ih bs cs]
        omega

theorem fillValue_length (s : Series) (v : Val) : (s.fillValue v).length = s.length := by
  simp [Series.fillValue]

theorem ffillAux_length (last : Option Val) (s : List (Option Val)) :
    (ffillAux last s).length = s.length := by
  induction s generalizing last with
  | nil => rfl
  | cons o rest ih => rcases o with _ | x <;> simp [ffillAux, ih]

theorem fillMethod_length (s : Series) (m : FillMethod) :
    (s.fillMethod m).length = s.length := by
  cases m with
  | ffill => exact ffillAux_length none s
  | bfill => simp [Series.fillMethod, Series.bfill, ffillAux_length]

theorem handleFills_length (s : Series) (kw : Kwargs) :
    (s.handleFills kw).length = s.length := by
  unfold Series.handleFills
  rcases kw.fill_method with _ | m <;> rcases kw.fillna with _ | v <;>
    simp [fillMethod_length, fillValue_length]

theorem rollingMean_length (s : Series) (L m : Nat) :
    (s.rollingMean L m).length = s.length := by
  unfold Series.rollingMean
  rw [List.length_map, List.length_range]

theorem rollingApply_length (s : Series) (L m : Nat) (f : List (Option Val) → Val) :
    (s.rollingApply L m f).length = s.length := by
  unfold Series.rollingApply
  rw [List.length_map, List.length_range]

theorem val_neg (s : Series) (j : Int) (hj : j < 0) : s.val j = none := by
  unfold Series.val
  rw [if_neg (by omega)]

theorem lt_length_of_val_some (s : Series) (i : Nat) (x : Val)
    (h : s.val (i : Int) = some x) : i < s.length := by
  rw [val_natCast] at h
  rcases ho : s[i]? with _ | o
  · rw [ho] at h; exact absurd h (by simp [Option.join])
  · exact (List.getElem?_eq_some_iff.mp ho).1

theorem val_cons_zero (o : Option Val) (rest : Series) :
    Series.val (o :: rest) ((0 : Nat) : Int) = o := by
  unfold Series.val
  simp

theorem val_cons_succ (o : Option Val) (rest : Series) (j : Nat) :
    Series.val (o :: rest) ((j + 1 : Nat) : Int) = rest.val (j : Int) := by
  unfold Series.val
  rw [if_pos (Int.ofNat_nonneg (j + 1)), if_pos (Int.ofNat_nonneg j)]
  have h1 : ((j + 1 : Nat) : Int).toNat = j + 1 := by omega
  have h2 : ((j : Nat) : Int).toNat = j := by omega
  rw [h1, h2, List.getElem?_cons_succ]

theorem val_zip2 (f : Val → Val → Val) (a b : Series) (i : Nat)
    (ha : i < a.length) (hb : i < b.length) :
    (Series.zip2 f a b).val (i : Int) = lift2 f (a.val (i : Int)) (b.val (i : Int)) := by
  induction a generalizing b i with
  | nil => exact absurd ha (by simp)
  | cons x as ih =>
    cases b with
    | nil => exact absurd hb (by simp)
    | cons y bs =>
      cases i with
      | zero => rw [show Series.zip2 f (x :: as) (y :: bs) = lift2 f x y :: Series.zip2 f as bs
          from rfl, val_cons_zero, val_cons_zero, val_cons_zero]
      | succ j =>
        rw [show Series.zip2 f (x :: as) (y :: bs) = lift2 f x y :: Series.zip2 f as bs
          from rfl, val_cons_succ, val_cons_succ, val_cons_succ]
        exact ih bs j (by simpa using ha) (by simpa using hb)

theorem val_zip3 (f : Option Val → Option Val → Option Val → Option Val)
    (x y z : Series) (i : Nat)
    (hx : i < x.length) (hy : i < y.length) (hz : i < z.length) :
    (zip3 f x y z).val (i : Int) = f (x.val (i : Int)) (y.val (i : Int)) (z.val (i : Int)) := by
  induction x generalizing y z i with
  | nil => exact absurd hx (by simp)
  | cons a as ih =>
    cases y with
    | nil => exact absurd hy (by simp)
    | cons b bs =>
      cases z with
      | nil => exact absurd hz (by simp)
      | cons c cs =>
        cases i with
        | zero => rw [show zip3 f (a :: as) (b :: bs) (c :: cs) = f a b c :: zip3 f as bs cs
            from rfl, val_cons_zero, val_cons_zero, val_cons_zero, val_cons_zero]
        | succ j =>
          rw [show zip3 f (a :: as) (b :: bs) (c :: cs) = f a b c :: zip3 f as bs cs
            from rfl, val_cons_succ, val_cons_succ, val_cons_succ, val_cons_succ]
          exact ih bs cs j (by simpa using hx) (by simpa using hy) (by simpa using hz)

theorem minIf_comm (a b : Nat) : (if b < a then b else a) = (if a < b then a else b) := by
  rcases Nat.lt_trichotomy a b with hlt | heq | hgt
  · rw [if_neg (Nat.lt_asymm hlt), if_pos hlt]
  · subst heq; simp
  · rw [if_pos hgt, if_neg (Nat.lt_asymm hgt)]

theorem maxIf_comm (a b : Nat) : (if b < a then a else b) = (if a < b then b else a) := by
  rcases Nat.lt_trichotomy a b with hlt | heq | hgt
  · rw [if_neg (Nat.lt_asymm hlt), if_pos hlt]
  · subst heq; simp
  · rw [if_pos hgt, if_neg (Nat.lt_asymm hgt)]

theorem defNonneg_two_eq_defPos (x : Option Val) : defNonneg x 2 = defPos x 2 := by
  rcases x with _ | v
  · rfl
  · simp only [defNonneg, defPos]
    by_cases h0 : v = 0
    · subst h0; norm_num
    · by_cases hp : 0 < v
      · rw [if_pos ⟨h0, le_of_lt hp⟩, if_pos hp]
      · rw [if_neg ?ne, if_neg hp]
        rintro ⟨hne, hge⟩
        exact hp (lt_of_le_of_ne hge (Ne.symm hne))

/-! ### Claim theorems -/

/-- Claim C1: the spec's round-trip-append property fails on the code.
For every Bar Table and resolvable close column, calling `log_return`
with `append=True` raises `NameError` instead of appending: the append
branch of `performance.log_return` assigns into a global `df` that is
never defined, so no column is ever written and no result returned. -/
theorem log_return_append_raises (log : Val → Val) (df : Df) (close : SeriesArg)
    (length : Option Int) (c p : Bool) (offset : Option Int) (kw : Kwargs)
    (cs : Series) (hres : resolveArg df close "close" = .ok cs)
    (happ : kw.append = true) :
    AnalysisIndicators.log_return log (some df) close length c p offset kw
      = .error (.nameError "df") := by
  simp only [AnalysisIndicators.log_return, performance.log_return, hres, happ]
  simp

/-- Witness for C1 at a concrete one-column table. -/
theorem log_return_append_raises_witness :
    AnalysisIndicators.log_return id (some [("close", [some 1, some 2])]) .null
      none false false none ⟨none, none, true, none⟩ = .error (.nameError "df") :=
  log_return_append_raises id _ _ _ _ _ _ _ [some 1, some 2] rfl rfl

/-- Claim C2, counterexample: `performance.log_return` accepts `fillna`
in kwargs but has no fill handling, so the missing first difference is
returned unfilled even though `fillna=0` was given. -/
theorem log_return_ignores_fillna :
    performance.log_return id [some 1, some 2] none false false none
      ⟨some 0, none, false, none⟩
      = .ok ⟨"LOGRET_1", "performance", [none, some 1]⟩ := by
  with_unfolding_all decide

/-- Claim C2, amended: for the indicators that implement the shared fill
block (here `_ao`, the cited one), a given `fillna` scalar replaces
every missing value — the returned series has no missing entries. -/
theorem ao_fillna_fills_all_missing (df : Df) (h l : Series)
    (fast slow : Option Int) (v : Val) (fm : Option FillMethod) (app : Bool)
    (mp : Option Int) (r : NamedSeries) (df2 : Df)
    (hok : _ao (some df) (.ser h) (.ser l) fast slow ⟨some v, fm, app, mp⟩
      = .ok (some (r, df2))) :
    r.values.all Option.isSome = true := by
  simp only [_ao, resolveArg] at hok
  have hr : r = ⟨"AO_" ++ toString (defInt fast 5) ++ "_" ++ toString (defInt slow 34),
      "momentum",
      (Series.zip2 (· - ·)
        ((Series.smul (1/2) (Series.zip2 (· + ·) h l)).rollingMean (defInt fast 5) (defInt fast 5))
        ((Series.smul (1/2) (Series.zip2 (· + ·) h l)).rollingMean (defInt slow 34) (defInt slow 34))).handleFills
        ⟨some v, fm, app, mp⟩⟩ := by
    cases hok
    rfl
  rw [hr]
  exact handleFills_fillna_all_isSome _ _ v rfl

/-- Witness for C2's amended theorem at a concrete input. -/
theorem ao_fillna_fills_all_missing_witness :
    (([some 0, some (1/2)] : Series).all Option.isSome) = true :=
  ao_fillna_fills_all_missing [("close", [some 1])] [some 2, some 4] [some 0, some 0]
    (some 1) (some 2) 0 none false none
    ⟨"AO_1_2", "momentum", [some 0, some (1/2)]⟩ [("close", [some 1])]
    (by with_unfolding_all decide)

/-- Claim C3: the offset identity fails for the accessor's aroon.
`_aroon` (to which `AnalysisIndicators.aroon` delegates) accepts the
`offset` parameter but never uses it, so any offset returns the very
same result as `offset=0` — no shift and no missing values are
introduced, unlike `trend.aroon`, which does shift. -/
theorem aroon_accessor_offset_ignored (df : Option Df) (close : SeriesArg)
    (length : Option Int) (offset : Option Int) (kw : Kwargs) :
    AnalysisIndicators.aroon df close length offset kw
      = AnalysisIndicators.aroon df close length (some 0) kw := rfl

/-- Claim C4, counterexample: `_ao` does not swap an out-of-order
fast/slow pair; exchanging the arguments changes the result (the
oscillator is negated and renamed), so `ao` is not ordering-invariant. -/
theorem ao_fast_slow_not_invariant :
    _ao (some [("close", [some 1])]) (.ser [some 2, some 4]) (.ser [some 0, some 0])
      (some 1) (some 2) Kwargs.empty
      ≠ _ao (some [("close", [some 1])]) (.ser [some 2, some 4]) (.ser [some 0, some 0])
      (some 2) (some 1) Kwargs.empty := by
  with_unfolding_all decide

/-- Claim C4, amended: `apo` does swap: for explicitly given positive
fast/slow values, exchanging the two arguments yields an identical
result (`if slow < fast: fast, slow = slow, fast` normalises the pair,
and `min_periods` defaults to the post-swap fast). -/
theorem apo_fast_slow_invariant (df : Option Df) (close : SeriesArg) (a b : Int)
    (kw : Kwargs) (ha : 0 < a) (hb : 0 < b) :
    AnalysisIndicators.apo df close (some a) (some b) kw
      = AnalysisIndicators.apo df close (some b) (some a) kw := by
  rcases df with _ | df
  · rfl
  · simp only [AnalysisIndicators.apo]
    rcases resolveArg df close "close" with e | cs
    · rfl
    · have h1 : defInt (some a) 12 = a.toNat := by simp [defInt, ha]
      have h2 : defInt (some b) 26 = b.toNat := by simp [defInt, hb]
      have h3 : defInt (some b) 12 = b.toNat := by simp [defInt, hb]
      have h4 : defInt (some a) 26 = a.toNat := by simp [defInt, ha]
      rw [h1, h2, h3, h4, minIf_comm a.toNat b.toNat, maxIf_comm a.toNat b.toNat]

/-- Witness for C4's amended theorem: `apo(close, fast=26, slow=12)` equals
`apo(close, fast=12, slow=26)` on a concrete table. -/
theorem apo_fast_slow_invariant_witness :
    AnalysisIndicators.apo (some [("close", [some 1])]) .null (some 26) (some 12)
      Kwargs.empty
      = AnalysisIndicators.apo (some [("close", [some 1])]) .null (some 12) (some 26)
      Kwargs.empty :=
  apo_fast_slow_invariant _ _ 26 12 _ (by norm_num) (by norm_num)

/-- Claim C5, counterexample: at position 0 with drift 1 the shifted
previous close is missing, yet `true_range` is not missing there: the
rowwise `max(axis=1)` skips missing entries and returns `|high - low|`
(here `|2 - 0| = 2`), so the missing sentinel is not contagious. -/
theorem true_range_first_row_defined :
    (volatility.true_range [some 2] [some 0] [some 5] (some 1) none Kwargs.empty).values
      = [some 2] ∧ some (2 : Val) ≠ (none : Option Val) := by
  with_unfolding_all decide

/-- Claim C5, amended: with no fill options and no offset, at any position
`i < drift` (where the shifted previous close does not exist) with
defined high and low, `true_range` yields `|high - low|` rather than a
missing value; the output is missing only where all three range terms
are missing. -/
theorem true_range_missing_prev_gives_hl_range (h l c : Series) (dr : Option Int)
    (i : Nat) (a b : Val) (hi : (i : Int) < get_drift dr)
    (hh : h.val (i : Int) = some a) (hl : l.val (i : Int) = some b)
    (hc : i < c.length) :
    (volatility.true_range h l c dr none Kwargs.empty).values.val (i : Int)
      = some |a - b| := by
  have hha := lt_length_of_val_some h i a hh
  have hlb := lt_length_of_val_some l i b hl
  unfold volatility.true_range
  have hoff : get_offset none = 0 := rfl
  rw [hoff]
  simp only [ne_eq, not_true_eq_false, if_false, handleFills_empty]
  have hlen2 : i < (c.shiftP (get_drift dr)).length := by rw [shiftP_length]; exact hc
  rw [val_zip3 _ _ _ _ i
    (by rw [zip2_length]; omega)
    (by rw [zip2_length, shiftP_length]; omega)
    (by rw [zip2_length, shiftP_length]; omega)]
  rw [val_zip2 _ _ _ i hha hlb, val_zip2 _ _ _ i hha hlen2, val_zip2 _ _ _ i hlb hlen2]
  have hprev : (c.shiftP (get_drift dr)).val (i : Int) = none := by
    unfold Series.shiftP
    rw [val_rangeMap, if_pos hc, val_neg]
    omega
  rw [hprev, hh, hl]
  simp [lift2, skipnaMax3, absOpt, definedVals]

/-- Witness for C5's amended theorem at the concrete counterexample input. -/
theorem true_range_missing_prev_gives_hl_range_witness :
    (volatility.true_range [some 2] [some 0] [some 5] (some 1) none
      Kwargs.empty).values.val ((0 : Nat) : Int) = some |(2 : Val) - 0| :=
  true_range_missing_prev_gives_hl_range [some 2] [some 0] [some 5] (some 1) 0 2 0
    (by norm_num [get_drift]) (by with_unfolding_all decide)
    (by with_unfolding_all decide) (by norm_num)

/-- Claim C6: for every close series, length, multiplier (and mamode), at
every position where the Bollinger lower/mid/upper values are all
defined, `lower ≤ mid ≤ upper`.  The only assumption on the
uninterpreted square root is that it preserves nonnegativity, which
IEEE `sqrt` satisfies; the rolling sample variance it is applied to is
nonnegative. -/
theorem bbands_lower_mid_upper_ordered (sqrt : Val → Val) (close : Series)
    (length : Option Int) (std : Option Val) (mamode : Option String) (i : Nat)
    (b : Bundle3) (lo m u : Val)
    (hsqrt : ∀ x, 0 ≤ x → 0 ≤ sqrt x)
    (hok : volatility.bbands sqrt close length std mamode none Kwargs.empty = .ok b)
    (hlo : b.lower.values.val (i : Int) = some lo)
    (hmid : b.mid.values.val (i : Int) = some m)
    (hup : b.upper.values.val (i : Int) = some u) :
    lo ≤ m ∧ m ≤ u := by
  unfold volatility.bbands at hok
  rw [show get_offset none = 0 from rfl] at hok
  simp only [ne_eq, not_true_eq_false, if_false, handleFills_empty] at hok
  split at hok
  · injection hok with hb
    subst hb
    dsimp only at hlo hmid hup
    obtain ⟨m1, w1, hm1, hw1, hlo_eq⟩ := val_zip2_some _ _ _ i lo hlo
    obtain ⟨m2, w2, hm2, hw2, hup_eq⟩ := val_zip2_some _ _ _ i u hup
    have hm1m : m1 = m := Option.some.inj (hm1.symm.trans hmid)
    have hm2m : m2 = m := Option.some.inj (hm2.symm.trans hmid)
    have hw12 : w1 = w2 := Option.some.inj (hw1.symm.trans hw2)
    obtain ⟨s0, hs0, hw1_eq⟩ := val_smul_some _ _ i w1 hw1
    unfold volatility.stdev at hs0
    obtain ⟨vr, hvr, hs0_eq⟩ := val_emap_some _ _ i s0 hs0
    have hvr_nonneg := rollingVar_val_nonneg _ _ _ i vr hvr
    have hs0_nonneg : 0 ≤ s0 := by
      rw [hs0_eq]
      exact hsqrt vr hvr_nonneg
    have hc_pos : (0 : Val) < defPos std 2 := defPos_pos std
    have hw1_nonneg : 0 ≤ w1 := by
      rw [hw1_eq]
      exact mul_nonneg (le_of_lt hc_pos) hs0_nonneg
    constructor
    · rw [hlo_eq, hm1m]
      linarith
    · rw [hup_eq, hm2m, ← hw12]
      linarith
  · exact absurd hok (by simp)

/-- Witness for C6 at a concrete input (constant close, window 2): at
position 1 all three band values are defined and equal. -/
theorem bbands_lower_mid_upper_ordered_witness : (1 : Val) ≤ 1 ∧ (1 : Val) ≤ 1 :=
  bbands_lower_mid_upper_ordered id [some 1, some 1] (some 2) (some 1) none 1
    ⟨"BBANDS_2", "volatility",
      ⟨"BBL_2", "volatility", [none, some 1]⟩,
      ⟨"BBM_2", "volatility", [none, some 1]⟩,
      ⟨"BBU_2", "volatility", [none, some 1]⟩⟩ 1 1 1
    (fun _ hx => hx)
    (by with_unfolding_all decide)
    (by with_unfolding_all decide)
    (by with_unfolding_all decide)
    (by with_unfolding_all decide)

/-- Claim C7: length invariance.  `true_range` (given equal-length
high/low/close inputs), both members of the `trend.aroon` bundle, and
`trend.decreasing` all return series of exactly the input length,
whatever parameters and fill options are supplied.  (The model is
positional, so equal length is the index-equality of the spec.) -/
theorem outputs_preserve_length (h l c : Series) (dr off : Option Int) (kw : Kwargs)
    (close1 : Series) (len1 off1 : Option Int) (kw1 : Kwargs)
    (close2 : Series) (len2 : Option Int) (asint : Bool) (off2 : Option Int)
    (kw2 : Kwargs) (h1 : l.length = h.length) (h2 : c.length = h.length) :
    (volatility.true_range h l c dr off kw).values.length = h.length
  ∧ (trend.aroon close1 len1 off1 kw1).up.values.length = close1.length
  ∧ (trend.aroon close1 len1 off1 kw1).down.values.length = close1.length
  ∧ (trend.decreasing close2 len2 asint off2 kw2).values.length = close2.length := by
  refine ⟨?_, ?_, ?_, ?_⟩
  · unfold volatility.true_range
    dsimp only
    rw [handleFills_length]
    split
    · rw [shiftP_length, zip3_length, zip2_length, zip2_length, zip2_length,
        shiftP_length]
      omega
    · rw [zip3_length, zip2_length, zip2_length, zip2_length, shiftP_length]
      omega
  · unfold trend.aroon
    dsimp only
    split
    · rw [shiftP_length, handleFills_length, rollingApply_length]
    · rw [handleFills_length, rollingApply_length]
  · unfold trend.aroon
    dsimp only
    split
    · rw [shiftP_length, handleFills_length, rollingApply_length]
    · rw [handleFills_length, rollingApply_length]
  · unfold trend.decreasing
    dsimp only
    rw [handleFills_length]
    split
    · rw [shiftP_length, List.length_map, diffP_length]
    · rw [List.length_map, diffP_length]

/-- Witness for C7 at concrete inputs. -/
theorem outputs_preserve_length_witness :
    (volatility.true_range [some 1] [some 2] [some 3] none none
      Kwargs.empty).values.length = ([some (1 : Val)] : Series).length
  ∧ (trend.aroon [some 1, some 2] (some 1) none Kwargs.empty).up.values.length
      = ([some (1 : Val), some 2] : Series).length
  ∧ (trend.aroon [some 1, some 2] (some 1) none Kwargs.empty).down.values.length
      = ([some (1 : Val), some 2] : Series).length
  ∧ (trend.decreasing [some 3, some 2] (some 1) true none
      Kwargs.empty).values.length = ([some (3 : Val), some 2] : Series).length :=
  outputs_preserve_length [some 1] [some 2] [some 3] none none Kwargs.empty
    [some 1, some 2] (some 1) none Kwargs.empty
    [some 3, some 2] (some 1) true none Kwargs.empty rfl rfl

/-- Claim C8, counterexample: on a one-bar table with the same explicit
`length=1`, `scalar=1`, `mamode='ema'`, the accessor-embedded
`AnalysisIndicators.kc` and the module `volatility.kc` return different
bundles (the accessor's basis is the SMA of the typical price, `1`; the
module's is the EMA of close, `0`, and its band is an under-seeded ATR,
missing) — the two implementations are not extensionally equal. -/
theorem kc_two_variants_differ :
    AnalysisIndicators.kc (some [("high", [some 3]), ("low", [some 0]), ("close", [some 0])])
      .null .null .null (some 1) (some 1) (some "ema") Kwargs.empty
      = .ok (some (⟨"KC1", "volatility",
          ⟨"KCL_1", "volatility", [some (-2)]⟩,
          ⟨"KCB_1", "volatility", [some 1]⟩,
          ⟨"KCU_1", "volatility", [some 4]⟩⟩,
        [("high", [some 3]), ("low", [some 0]), ("close", [some 0])]))
  ∧ volatility.kc [some 3] [some 0] [some 0] (some 1) (some 1) (some "ema") none
      Kwargs.empty
      = ⟨"KC_1", "volatility",
          ⟨"KCL_1", "volatility", [none]⟩,
          ⟨"KCB_1", "volatility", [some 0]⟩,
          ⟨"KCU_1", "volatility", [none]⟩⟩
  ∧ ([some (1 : Val)] : Series) ≠ [some 0] := by
  refine ⟨by with_unfolding_all decide, by with_unfolding_all decide,
    by with_unfolding_all decide⟩

/-- Claim C8, amended: the two implementations compute the same channel
formulas with the meaning of `mamode` exchanged (and different default
lengths, 9999 versus 20).  For every input, explicit common positive
length, scalar and kwargs, the accessor body with `mamode='ema'` returns
the very same lower/basis/upper member series as the module variant with
its default (non-ema) mamode and no offset. -/
theorem kc_variants_equal_swapped_mamode (h l c : Series) (L : Int) (sc : Option Val)
    (kw : Kwargs) (hL : 0 < L) :
    (AnalysisIndicators.kc_core h l c (some L) sc (some "ema") kw).lower
        = (volatility.kc h l c (some L) sc none none kw).lower
  ∧ (AnalysisIndicators.kc_core h l c (some L) sc (some "ema") kw).mid
        = (volatility.kc h l c (some L) sc none none kw).mid
  ∧ (AnalysisIndicators.kc_core h l c (some L) sc (some "ema") kw).upper
        = (volatility.kc h l c (some L) sc none none kw).upper := by
  unfold AnalysisIndicators.kc_core volatility.kc
  rw [defNonneg_two_eq_defPos]
  have hlen : defInt (some L) 9999 = defInt (some L) 20 := by simp [defInt, hL]
  rw [hlen]
  rw [show pyLowerOr (some "ema") "classic" = "ema" from by decide]
  rw [show pyLowerOpt none = (none : Option String) from rfl]
  norm_num [get_offset]

/-- Witness for C8's amended theorem at the counterexample's bar data. -/
theorem kc_variants_equal_swapped_mamode_witness :
    (AnalysisIndicators.kc_core [some 3] [some 0] [some 0] (some 1) (some 1)
        (some "ema") Kwargs.empty).lower
      = (volatility.kc [some 3] [some 0] [some 0] (some 1) (some 1) none none
        Kwargs.empty).lower
  ∧ (AnalysisIndicators.kc_core [some 3] [some 0] [some 0] (some 1) (some 1)
        (some "ema") Kwargs.empty).mid
      = (volatility.kc [some 3] [some 0] [some 0] (some 1) (some 1) none none
        Kwargs.empty).mid
  ∧ (AnalysisIndicators.kc_core [some 3] [some 0] [some 0] (some 1) (some 1)
        (some "ema") Kwargs.empty).upper
      = (volatility.kc [some 3] [some 0] [some 0] (some 1) (some 1) none none
        Kwargs.empty).upper :=
  kc_variants_equal_swapped_mamode [some 3] [some 0] [some 0] 1 (some 1)
    Kwargs.empty (by norm_num)

/-- Claim C9, counterexample: `kind="defaults"` matches no known
indicator function, yet the facade raises no unknown-indicator error:
`getattr` resolves the class attribute `defaults` and the dispatch
proceeds to call it.  (Likewise for `_df`, `__call__`, and attributes
inherited from `PandasObject`/`object` such as `__repr__`, which even
returns a result.) -/
theorem facade_defaults_not_unknown :
    "defaults" ∉ AnalysisIndicators.indicatorNames
  ∧ AnalysisIndicators.call AnalysisIndicators.ownAttrNames (some "defaults")
      = .ok "defaults"
  ∧ (Except.ok "defaults" : Except PyExn String)
      ≠ .error (.valueError ("kind=" ++ "\x27" ++ "defaults"
          ++ "\x27 is not valid for AnalysisIndicators")) := by
  refine ⟨by decide, by decide, by decide⟩

/-- Claim C9, amended: for every set `attrs` of `getattr`-resolvable
attribute names and every string that (after the two `.lower()` calls
of `__call__`) resolves to no attribute in it, dispatch raises the
unknown-indicator error — a `ValueError` whose message names the
unrecognised kind — and no indicator result is produced.  Strings
naming a non-indicator attribute (`defaults`, `_df`, `__call__`, or a
name inherited from `PandasObject`/`object`) are resolved instead and
never reach this error. -/
theorem facade_unknown_kind_fails (attrs : List String) (s : String)
    (h : attrs.contains (pyLowerStr (pyLowerStr s)) = false) :
    AnalysisIndicators.call attrs (some s)
      = .error (.valueError ("kind=" ++ "\x27" ++ pyLowerStr (pyLowerStr s)
          ++ "\x27 is not valid for AnalysisIndicators")) := by
  unfold AnalysisIndicators.call AnalysisIndicators.pyLower
  have h2 : pyLowerStr (pyLowerStr s) ∉ attrs := by
    intro hm
    rw [show attrs.contains (pyLowerStr (pyLowerStr s))
        = List.elem (pyLowerStr (pyLowerStr s)) attrs from rfl,
      List.elem_eq_true_of_mem hm] at h
    exact absurd h (by simp)
  simp [h2]

/-- Witness for C9: `kind="nonexistent"` resolves to no attribute of the
accessor and fails with the error naming it. -/
theorem facade_unknown_kind_fails_witness :
    AnalysisIndicators.call AnalysisIndicators.ownAttrNames (some "nonexistent")
      = .error (.valueError ("kind=" ++ "\x27"
          ++ pyLowerStr (pyLowerStr "nonexistent")
          ++ "\x27 is not valid for AnalysisIndicators")) :=
  facade_unknown_kind_fails AnalysisIndicators.ownAttrNames "nonexistent" (by decide)

/-- Claim C10: a non-string `kind` (modelled as `none`, since `__call__`
rebinds every non-string to Python `None`) makes the dispatch raise
`AttributeError` from inside the `except` branch — the handler itself
evaluates `kind.lower()` on `None` while formatting its message — and
no `ValueError` is produced. -/
theorem facade_non_string_kind_attr_err (attrs : List String) :
    AnalysisIndicators.call attrs none
      = .error (.attributeError "NoneType object has no attribute lower")
  ∧ ∀ msg : String, AnalysisIndicators.call attrs none ≠ .error (.valueError msg) := by
  constructor
  · rfl
  · intro msg hmsg
    exact absurd (Except.error.inj hmsg) (by simp)

/-- Witness for C3 at a concrete table: `offset=1` returns exactly the
`offset=0` result. -/
theorem aroon_accessor_offset_ignored_witness :
    AnalysisIndicators.aroon (some [("close", [some 1, some 2, some 3])]) .null
      (some 2) (some 1) Kwargs.empty
      = AnalysisIndicators.aroon (some [("close", [some 1, some 2, some 3])]) .null
      (some 2) (some 0) Kwargs.empty :=
  aroon_accessor_offset_ignored _ _ _ _ _

/-- Witness for C10: the `AttributeError` outcome instantiated, and in
particular it is not the `ValueError` message the handler meant to
raise. -/
theorem facade_non_string_kind_attr_err_witness :
    AnalysisIndicators.call AnalysisIndicators.ownAttrNames none
      = .error (.attributeError "NoneType object has no attribute lower")
  ∧ AnalysisIndicators.call AnalysisIndicators.ownAttrNames none
      ≠ .error (.valueError ("kind=" ++ "\x27" ++ "none"
          ++ "\x27 is not valid for AnalysisIndicators")) :=
  ⟨(facade_non_string_kind_attr_err AnalysisIndicators.ownAttrNames).1,
    (facade_non_string_kind_attr_err AnalysisIndicators.ownAttrNames).2 _⟩
